import Mathlib

/-!
Shallow embedding of the alert-to-notification pipeline of the
flights-tracker repository, together with theorems settling the claims
about the Filter Translator, the Result Filter, the Alert Lifecycle
Manager, the Alert Batch Processor and the Notification Content Pipeline.

Conventions of the embedding:
* Timestamps are integers counting hours since an epoch; a calendar day
  is 24 hours.  A date string of the form YYYY-MM-DD is represented by
  its day number; parsing such a string (new Date(str) in the source)
  yields the midnight timestamp of that day.  The whole model lives in a
  single time zone, so local midnight and UTC midnight coincide.
* JavaScript number truthiness is modelled explicitly: an optional
  numeric field is truthy when it is present and non-zero; an optional
  list field guarded by length > 0 is truthy when present and non-empty.
* Fallible external collaborators (search SDK, filter validation, AI
  generation) are passed in as explicit Except / Option valued inputs.
* The source reads the system clock (new Date()) inside the translator
  and the expiry partition; the embedding passes that reference time as
  an explicit argument, as the specification requires for testability.
-/

namespace FlightsTracker

/-- Timestamp in hours since the epoch. -/
abbrev Timestamp := Int

/-- Number of hours in one calendar day. -/
def hoursPerDay : Int := 24

/-- Midnight of the day containing a timestamp; models setHours(0,0,0,0). -/
def startOfDay (t : Timestamp) : Timestamp := hoursPerDay * (t.fdiv hoursPerDay)

/-- Calendar day number of a timestamp; models toISOString().split("T")[0]. -/
def dayOf (t : Timestamp) : Int := t.fdiv hoursPerDay

/-- Timestamp denoted by a date string (day number); models new Date("YYYY-MM-DD"). -/
def dateValue (d : Int) : Timestamp := hoursPerDay * d

/-- Stop tiers stored in alert criteria (string enum in the source). -/
inductive Stops where
  | ANY | NONSTOP | ONE_STOP | TWO_STOPS
deriving DecidableEq, Repr

/-- Cabin classes stored in alert criteria (string enum in the source). -/
inductive SeatClass where
  | ECONOMY | PREMIUM_ECONOMY | BUSINESS | FIRST
deriving DecidableEq, Repr

/-- MaxStops enum of the flight-search SDK (lib/fli/models). -/
inductive MaxStops where
  | ANY | NON_STOP | ONE_STOP_OR_FEWER | TWO_OR_FEWER_STOPS
deriving DecidableEq, Repr

/-- SeatType enum of the flight-search SDK (lib/fli/models). -/
inductive SeatType where
  | ECONOMY | PREMIUM_ECONOMY | BUSINESS | FIRST
deriving DecidableEq, Repr

/-- TripType enum of the flight-search SDK; daily alerts always use ONE_WAY. -/
inductive TripType where
  | ONE_WAY | ROUND_TRIP
deriving DecidableEq, Repr

/-- Currency enum of the flight-search SDK; the pipeline only uses USD. -/
inductive Currency where
  | USD
deriving DecidableEq, Repr

/-- Departure or arrival time-of-day window; carried through unchanged. -/
structure TimeRange where
  earliest : Option Int := none
  latest : Option Int := none
deriving DecidableEq, Repr

/-- Route of an alert: origin and destination location codes. -/
structure Route where
  «from» : String
  «to» : String
deriving DecidableEq, Repr

/-- Optional criteria bundle of an alert (the inner filters object). -/
structure AlertCriteria where
  dateFrom : Option Int := none
  dateTo : Option Int := none
  departureTimeRange : Option TimeRange := none
  arrivalTimeRange : Option TimeRange := none
  «class» : Option SeatClass := none
  stops : Option Stops := none
  airlines : Option (List String) := none
  price : Option Int := none
deriving DecidableEq, Repr

/-- Filters of a stored alert: a route plus an optional criteria bundle. -/
structure AlertFilters where
  route : Route
  filters : Option AlertCriteria := none
deriving DecidableEq, Repr

/-- Single leg of an itinerary slice. -/
structure FlightLeg where
  airlineCode : String
  airlineName : Option String := none
  departureAirportCode : String := ""
  departureDateTime : String := ""
  arrivalAirportCode : String := ""
  arrivalDateTime : String := ""
deriving DecidableEq, Repr

/-- One directional slice of an itinerary. -/
structure FlightSlice where
  stops : Nat
  durationMinutes : Option Int := none
  legs : List FlightLeg := []
deriving DecidableEq, Repr

/-- Priced itinerary returned by the search collaborator. -/
structure FlightOption where
  totalPrice : Int
  currency : String := "USD"
  slices : List FlightSlice := []
deriving DecidableEq, Repr

/-- One search segment of the query sent to the search collaborator. -/
structure FlightSegment where
  origin : String
  destination : String
  departureDate : Int
  departureTimeRange : Option TimeRange := none
  arrivalTimeRange : Option TimeRange := none
deriving DecidableEq, Repr

/-- Overall date range of the query. -/
structure QueryDateRange where
  «from» : Int
  «to» : Int
deriving DecidableEq, Repr

/-- Price ceiling attached to the query. -/
structure PriceLimit where
  amount : Int
  currency : Currency
deriving DecidableEq, Repr

/-- Concrete flight-search query produced by the Filter Translator. -/
structure FlightFiltersInput where
  tripType : TripType
  segments : List FlightSegment
  dateRange : QueryDateRange
  seatType : SeatType
  stops : MaxStops
  airlines : Option (List String) := none
  priceLimit : Option PriceLimit := none
deriving DecidableEq, Repr

/-- Map of alert stop tiers to the SDK MaxStops enum (stopsMap in the source). -/
def stopsMap : Stops → MaxStops
  | .ANY => .ANY
  | .NONSTOP => .NON_STOP
  | .ONE_STOP => .ONE_STOP_OR_FEWER
  | .TWO_STOPS => .TWO_OR_FEWER_STOPS

/-- Map of alert cabin classes to the SDK SeatType enum (seatTypeMap in the source). -/
def seatTypeMap : SeatClass → SeatType
  | .ECONOMY => .ECONOMY
  | .PREMIUM_ECONOMY => .PREMIUM_ECONOMY
  | .BUSINESS => .BUSINESS
  | .FIRST => .FIRST

/-- Upper-casing of an airline code (String.prototype.toUpperCase in
the source, which only meets ASCII codes here), defined by char-wise
mapping so that it computes by kernel reduction. -/
def toUpperString (s : String) : String := ⟨s.data.map Char.toUpper⟩

/-- Expiry test of the Filter Translator: the entire date range has
expired when dateTo is present and its start of day is before today. -/
def translatorDateToExpired (filters : Option AlertCriteria)
    (today : Timestamp) : Bool :=
  match filters.bind AlertCriteria.dateTo with
  | some dTo => decide (startOfDay (dateValue dTo) < today)
  | none => false

/-- Effective start date of the Filter Translator (the local
effectiveDateFrom of the source): tomorrow when dateFrom is absent or
its start of day lies before today, dateFrom unchanged otherwise. -/
def translatorEffectiveDateFrom (filters : Option AlertCriteria)
    (today : Timestamp) (tomorrowStr : Int) : Int :=
  match filters.bind AlertCriteria.dateFrom with
  | some dF => if startOfDay (dateValue dF) < today then tomorrowStr else dF
  | none => tomorrowStr

/-- Filter Translator (convertAlertFiltersToFlightFilters in
src/core/alert-flight-fetcher.ts): converts stored alert filters into a
flight-search query, or none when the whole date window has elapsed.
The reference time now is passed explicitly; the source reads new Date()
at the same point.  The conditional airlines and priceLimit field
assignments of the source are rendered as optional field values. -/
def convertAlertFiltersToFlightFilters (alertFilters : AlertFilters)
    (now : Timestamp) : Option FlightFiltersInput :=
  let route := alertFilters.route
  let filters := alertFilters.filters
  let today := startOfDay now
  let tomorrow := today + hoursPerDay
  let tomorrowStr := dayOf tomorrow
  -- Check if the entire date range has expired
  if translatorDateToExpired filters today then none
  else
    -- Adjust the start date if it is in the past
    let effectiveDateFrom := translatorEffectiveDateFrom filters today tomorrowStr
    some
      { tripType := .ONE_WAY
        segments :=
          [{ origin := route.«from»
             destination := route.«to»
             departureDate := effectiveDateFrom
             departureTimeRange := filters.bind AlertCriteria.departureTimeRange
             arrivalTimeRange := filters.bind AlertCriteria.arrivalTimeRange }]
        dateRange :=
          { «from» := effectiveDateFrom
            «to» := (filters.bind AlertCriteria.dateTo).getD effectiveDateFrom }
        seatType :=
          match filters.bind AlertCriteria.«class» with
          | some c => seatTypeMap c
          | none => SeatType.ECONOMY
        stops :=
          match filters.bind AlertCriteria.stops with
          | some s => stopsMap s
          | none => MaxStops.ANY
        airlines :=
          match filters.bind AlertCriteria.airlines with
          | some as => if as.length > 0 then some as else none
          | none => none
        priceLimit :=
          match filters.bind AlertCriteria.price with
          | some p =>
              if p ≠ 0 then some { amount := p, currency := .USD } else none
          | none => none }

/-- Price check of the Result Filter: with a truthy price ceiling, a
flight whose totalPrice exceeds it is dropped. -/
def pricePredicate (filters : AlertCriteria) (flight : FlightOption) : Bool :=
  match filters.price with
  | some p => if p ≠ 0 then decide (flight.totalPrice ≤ p) else true
  | none => true

/-- Airline check of the Result Filter: with a non-empty allow-set, some
leg of some slice must carry a code contained in the upper-cased set. -/
def airlinePredicate (filters : AlertCriteria) (flight : FlightOption) : Bool :=
  match filters.airlines with
  | some as =>
      if as.length > 0 then
        flight.slices.any fun slice =>
          slice.legs.any fun leg => (as.map toUpperString).contains leg.airlineCode
      else true
  | none => true

/-- Stops check of the Result Filter: every slice must have at most the
ceiling of the tier (ANY has no ceiling). -/
def stopsPredicate (filters : AlertCriteria) (flight : FlightOption) : Bool :=
  match filters.stops with
  | some st =>
      let maxStops : Option Nat :=
        match st with
        | .NONSTOP => some 0
        | .ONE_STOP => some 1
        | .TWO_STOPS => some 2
        | .ANY => none
      flight.slices.all fun slice =>
        match maxStops with
        | some m => decide (slice.stops ≤ m)
        | none => true
  | none => true

/-- First early return of the Result Filter callback: a truthy price
ceiling is present and totalPrice exceeds it. -/
def priceDropCondition (filters : AlertCriteria) (flight : FlightOption) : Bool :=
  match filters.price with
  | some p => p ≠ 0 && decide (flight.totalPrice > p)
  | none => false

/-- Second early return of the Result Filter callback: a non-empty
allow-set is present and no leg of any slice matches it. -/
def airlineDropCondition (filters : AlertCriteria) (flight : FlightOption) : Bool :=
  match filters.airlines with
  | some as =>
      as.length > 0 &&
        !(flight.slices.any fun slice =>
            slice.legs.any fun leg =>
              (as.map toUpperString).contains leg.airlineCode)
  | none => false

/-- Third early return of the Result Filter callback: a stops tier is
present and some slice has more stops than the tier allows. -/
def stopsDropCondition (filters : AlertCriteria) (flight : FlightOption) : Bool :=
  match filters.stops with
  | some st =>
      let maxStops : Option Nat :=
        match st with
        | .NONSTOP => some 0
        | .ONE_STOP => some 1
        | .TWO_STOPS => some 2
        | .ANY => none
      !(flight.slices.all fun slice =>
          match maxStops with
          | some m => decide (slice.stops ≤ m)
          | none => true)
  | none => false

/-- Per-flight callback of the Result Filter, with the early-return
structure of the source. -/
def flightMatchesAlertCriteria (filters : AlertCriteria)
    (flight : FlightOption) : Bool :=
  -- Filter by max price
  if priceDropCondition filters flight then false
  -- Filter by airlines (if specified)
  else if airlineDropCondition filters flight then false
  -- Filter by stops
  else if stopsDropCondition filters flight then false
  else true

/-- Result Filter (filterFlightsByAlertCriteria in
src/core/alert-flight-fetcher.ts): keeps the flights meeting the alert
criteria; without a criteria bundle it is the identity. -/
def filterFlightsByAlertCriteria (flights : List FlightOption)
    (alertFilters : AlertFilters) : List FlightOption :=
  match alertFilters.filters with
  | none => flights
  | some filters => flights.filter (flightMatchesAlertCriteria filters)

/-- Lifecycle states of a stored alert. -/
inductive AlertStatus where
  | active | completed | deleted
deriving DecidableEq, Repr

/-- Stored alert row (db/schema), restricted to the fields this
subsystem reads. -/
structure Alert where
  id : String
  userId : String := ""
  type : String := "daily"
  status : AlertStatus := .active
  filters : AlertFilters
  alertEnd : Option Timestamp := none
deriving DecidableEq, Repr

/-- Patch passed to updateAlert (UpdateAlertInput), restricted to the
only field the lifecycle manager patches. -/
structure UpdateAlertInput where
  status : Option AlertStatus := none
deriving DecidableEq, Repr

/-- Applying an updateAlert patch to the status column of an alert row
(updateAlert in the worker alerts-db adapter sets exactly the supplied
fields). -/
def applyStatusUpdate (s : AlertStatus) (u : UpdateAlertInput) : AlertStatus :=
  u.status.getD s

/-- Expiry partition loop of filterAndUpdateExpiredAlerts in
scripts/generate-email-to-user.ts: first component the activeAlerts
array, second the expiredAlerts array, both in input order.  The source
reads new Date() for now. -/
def partitionByExpiry (alerts : List Alert) (now : Timestamp) :
    List Alert × List Alert :=
  match alerts with
  | [] => ([], [])
  | a :: rest =>
    let p := partitionByExpiry rest now
    match a.alertEnd with
    | some endDate => if endDate ≤ now then (p.1, a :: p.2) else (a :: p.1, p.2)
    | none => (a :: p.1, p.2)

/-- Status updates issued by filterAndUpdateExpiredAlerts: one
updateAlert(id, status completed) call per expired alert. -/
def expiredAlertUpdates (alerts : List Alert) (now : Timestamp) :
    List (String × UpdateAlertInput) :=
  (partitionByExpiry alerts now).2.map fun a => (a.id, { status := some .completed })

/-- Value returned by filterAndUpdateExpiredAlerts: the active alerts. -/
def filterAndUpdateExpiredAlerts (alerts : List Alert) (now : Timestamp) :
    List Alert :=
  (partitionByExpiry alerts now).1

/-- Ephemeral pairing of an alert with its matching flights. -/
structure AlertWithFlights where
  alert : Alert
  flights : List FlightOption
deriving DecidableEq, Repr

/-- Outcome of the external search collaborator for one alert,
covering parseFlightFiltersInput validation and searchFlights: an
exception from either is an error value. -/
abbrev SearchOutcome := Except Unit (List FlightOption)

/-- Flight list carried by a successful search outcome. -/
def okFlights : SearchOutcome → List FlightOption
  | .ok flights => flights
  | .error _ => []

/-- Per-alert fetch (fetchFlightsForAlert in
src/core/alert-flight-fetcher.ts): translate the filters (skip on
none), run the external search, truncate to maxFlights, then apply the
Result Filter; any collaborator exception is caught and yields none.
The outcome of the fallible external calls is passed in as search. -/
def fetchFlightsForAlert (search : SearchOutcome) (alert : Alert)
    (now : Timestamp) (maxFlights : Nat := 5) : Option AlertWithFlights :=
  match convertAlertFiltersToFlightFilters alert.filters now with
  | none => none
  | some _validatedFilters =>
    match search with
    | .error _ => none
    | .ok flights =>
      let limitedFlights := flights.take maxFlights
      let matchingFlights :=
        filterFlightsByAlertCriteria limitedFlights alert.filters
      some { alert := alert, flights := matchingFlights }

/-- Batch processor (fetchFlightDataForAlerts in
src/core/alert-flight-fetcher.ts): fetch per alert, drop failed fetches
and alerts with no remaining flights.  It is a total function: no
collaborator failure propagates. -/
def fetchFlightDataForAlerts (search : Alert → SearchOutcome)
    (alerts : List Alert) (now : Timestamp) (maxFlights : Nat := 5) :
    List AlertWithFlights :=
  if alerts.isEmpty then []
  else
    let results := alerts.map fun alert =>
      fetchFlightsForAlert (search alert) alert now maxFlights
    (results.filterMap id).filter fun result => !result.flights.isEmpty

/-! Helper lemmas about the Result Filter. -/

lemma pricePredicate_eq_not_drop (fs : AlertCriteria) (F : FlightOption) :
    pricePredicate fs F = !priceDropCondition fs F := by
  unfold pricePredicate priceDropCondition
  cases fs.price with
  | none => rfl
  | some p =>
    by_cases h0 : p = 0
    · simp [h0]
    · by_cases hgt : F.totalPrice > p
      · simp [h0, hgt]
      · simp [h0, hgt, Int.not_lt.mp hgt]

lemma airlinePredicate_eq_not_drop (fs : AlertCriteria) (F : FlightOption) :
    airlinePredicate fs F = !airlineDropCondition fs F := by
  unfold airlinePredicate airlineDropCondition
  cases fs.airlines with
  | none => rfl
  | some as =>
    by_cases hlen : as.length > 0 <;> simp [hlen]

lemma stopsPredicate_eq_not_drop (fs : AlertCriteria) (F : FlightOption) :
    stopsPredicate fs F = !stopsDropCondition fs F := by
  unfold stopsPredicate stopsDropCondition
  cases fs.stops with
  | none => rfl
  | some st => simp

lemma flightMatches_eq_predicates (fs : AlertCriteria) (F : FlightOption) :
    flightMatchesAlertCriteria fs F =
      (pricePredicate fs F && airlinePredicate fs F && stopsPredicate fs F) := by
  rw [pricePredicate_eq_not_drop, airlinePredicate_eq_not_drop,
    stopsPredicate_eq_not_drop]
  unfold flightMatchesAlertCriteria
  cases priceDropCondition fs F <;> cases airlineDropCondition fs F <;>
    cases stopsDropCondition fs F <;> rfl

/-! Claim theorems about the Filter Translator and the Result Filter. -/

/-- C1: the Filter Translator returns null exactly when dateTo is
present with start-of-day before today; otherwise the effective start
date of the query is tomorrow when dateFrom is absent or its
start-of-day is before today, and dateFrom unchanged when its
start-of-day is at or after today. -/
theorem translator_date_window_claim (af : AlertFilters) (now : Timestamp) :
    (convertAlertFiltersToFlightFilters af now = none ↔
      ∃ dTo, af.filters.bind AlertCriteria.dateTo = some dTo ∧
        startOfDay (dateValue dTo) < startOfDay now)
    ∧ ∀ q, convertAlertFiltersToFlightFilters af now = some q →
        (af.filters.bind AlertCriteria.dateFrom = none →
            q.dateRange.«from» = dayOf (startOfDay now + hoursPerDay))
        ∧ ∀ dF, af.filters.bind AlertCriteria.dateFrom = some dF →
            (startOfDay (dateValue dF) < startOfDay now →
              q.dateRange.«from» = dayOf (startOfDay now + hoursPerDay))
            ∧ (startOfDay now ≤ startOfDay (dateValue dF) →
              q.dateRange.«from» = dF) := by
  constructor
  · constructor
    · intro h
      unfold convertAlertFiltersToFlightFilters at h
      by_cases hex : translatorDateToExpired af.filters (startOfDay now) = true
      · unfold translatorDateToExpired at hex
        cases hdt : af.filters.bind AlertCriteria.dateTo with
        | none => rw [hdt] at hex; simp at hex
        | some dTo =>
          rw [hdt] at hex
          exact ⟨dTo, rfl, by simpa using hex⟩
      · simp [hex] at h
    · rintro ⟨dTo, hdt, hlt⟩
      have hex : translatorDateToExpired af.filters (startOfDay now) = true := by
        unfold translatorDateToExpired; rw [hdt]; simpa using hlt
      unfold convertAlertFiltersToFlightFilters
      simp [hex]
  · intro q hq
    unfold convertAlertFiltersToFlightFilters at hq
    by_cases hex : translatorDateToExpired af.filters (startOfDay now) = true
    · simp [hex] at hq
    · simp only [hex, if_neg, Bool.false_eq_true, not_false_iff,
        Option.some.injEq, ite_false] at hq
      have hfrom : q.dateRange.«from» =
          translatorEffectiveDateFrom af.filters (startOfDay now)
            (dayOf (startOfDay now + hoursPerDay)) := by
        rw [← hq]
      constructor
      · intro hdf
        rw [hfrom]
        unfold translatorEffectiveDateFrom
        rw [hdf]
      · intro dF hdf
        constructor
        · intro hlt
          rw [hfrom]
          unfold translatorEffectiveDateFrom
          rw [hdf]
          simp [hlt]
        · intro hge
          rw [hfrom]
          unfold translatorEffectiveDateFrom
          rw [hdf]
          simp [Int.not_lt.mpr hge]

/-- C2: the Result Filter is an order-preserving subsequence of its
input, the identity when no criteria bundle is present, and with a
criteria bundle a flight is kept iff it simultaneously satisfies the
price, airline and stops predicates. -/
theorem result_filter_conjunction_claim (af : AlertFilters)
    (flights : List FlightOption) :
    (filterFlightsByAlertCriteria flights af).Sublist flights
    ∧ (af.filters = none → filterFlightsByAlertCriteria flights af = flights)
    ∧ ∀ fs, af.filters = some fs →
        ∀ F, F ∈ filterFlightsByAlertCriteria flights af ↔
          F ∈ flights ∧ pricePredicate fs F = true ∧
            airlinePredicate fs F = true ∧ stopsPredicate fs F = true := by
  refine ⟨?_, ?_, ?_⟩
  · unfold filterFlightsByAlertCriteria
    cases af.filters with
    | none => exact List.Sublist.refl flights
    | some fs => exact List.filter_sublist flights
  · intro h
    unfold filterFlightsByAlertCriteria
    rw [h]
  · intro fs h F
    unfold filterFlightsByAlertCriteria
    rw [h]
    simp [List.mem_filter, flightMatches_eq_predicates, and_assoc]

/-! Concrete fixtures used by counterexamples and witnesses. -/

/-- Criteria bundle with only an airline allow-set, given in upper case. -/
def caseOnlyCriteria : AlertCriteria := { airlines := some ["AA"] }

/-- Alert filters carrying caseOnlyCriteria. -/
def caseOnlyAllowFilters : AlertFilters :=
  { route := { «from» := "SFO", «to» := "JFK" }, filters := some caseOnlyCriteria }

/-- Flight whose only leg carries the airline code in lower case. -/
def lowercaseLegFlight : FlightOption :=
  { totalPrice := 100, currency := "USD",
    slices := [{ stops := 0, legs := [{ airlineCode := "aa" }] }] }

/-- Flight whose only leg carries the airline code in upper case. -/
def uppercaseLegFlight : FlightOption :=
  { totalPrice := 100, currency := "USD",
    slices := [{ stops := 0, legs := [{ airlineCode := "AA" }] }] }

/-- Criteria bundle whose price ceiling is zero. -/
def zeroPriceCriteria : AlertCriteria := { price := some 0 }

/-- Alert filters carrying zeroPriceCriteria. -/
def zeroPriceFilters : AlertFilters :=
  { route := { «from» := "SFO", «to» := "JFK" }, filters := some zeroPriceCriteria }

/-- Alert whose alertEnd is exactly the reference now used below. -/
def boundaryAlert : Alert :=
  { id := "alert-1",
    filters := { route := { «from» := "SFO", «to» := "JFK" } },
    alertEnd := some 120 }

/-- C8 counterexample: the code "aa" equals the allowed code "AA"
ignoring letter case, yet the Result Filter drops the flight, because
only the allow-set is upper-cased while the leg code is compared
verbatim. -/
theorem airline_case_counterexample :
    toUpperString "aa" = toUpperString "AA"
    ∧ filterFlightsByAlertCriteria [lowercaseLegFlight] caseOnlyAllowFilters = [] := by
  exact ⟨by decide, rfl⟩

/-- C8 amended: with a non-empty allow-set the flight is kept by the
airline predicate iff some leg code verbatim-equals the upper-cased
form of an allowed code; the allow-set side of the comparison is
case-insensitive (upper-casing it first changes nothing), the leg side
is compared as stored. -/
theorem airline_predicate_amended (fs : AlertCriteria) (as : List String)
    (F : FlightOption) (h : fs.airlines = some as) (hne : as ≠ []) :
    (airlinePredicate fs F = true ↔
      ∃ slice ∈ F.slices, ∃ leg ∈ slice.legs,
        leg.airlineCode ∈ as.map toUpperString)
    ∧ ∀ as2, as2.map toUpperString = as.map toUpperString →
        airlinePredicate { fs with airlines := some as2 } F =
          airlinePredicate fs F := by
  have hlen : 0 < as.length := List.length_pos.mpr hne
  constructor
  · unfold airlinePredicate
    rw [h]
    simp [hlen, List.any_eq_true]
  · intro as2 h2
    have hlen2 : 0 < as2.length := by
      have := congrArg List.length h2
      simp only [List.length_map] at this
      omega
    unfold airlinePredicate
    simp only [h]
    rw [h2]
    simp [hlen, hlen2]

/-- Witness for the amended C8 theorem at a concrete input. -/
theorem airline_predicate_amended_witness :
    (airlinePredicate caseOnlyCriteria uppercaseLegFlight = true ↔
      ∃ slice ∈ uppercaseLegFlight.slices, ∃ leg ∈ slice.legs,
        leg.airlineCode ∈ (["AA"] : List String).map toUpperString)
    ∧ ∀ as2, as2.map toUpperString = (["AA"] : List String).map toUpperString →
        airlinePredicate { caseOnlyCriteria with airlines := some as2 }
            uppercaseLegFlight =
          airlinePredicate caseOnlyCriteria uppercaseLegFlight :=
  airline_predicate_amended caseOnlyCriteria ["AA"] uppercaseLegFlight rfl
    (List.cons_ne_nil _ _)

/-- C10: a price ceiling of zero is treated as absent, both by the
Filter Translator (no priceLimit field in the query) and by the Result
Filter (flights of any totalPrice pass the price check). -/
theorem zero_price_ceiling_claim (af : AlertFilters) (fs : AlertCriteria)
    (h : af.filters = some fs) (h0 : fs.price = some 0) :
    (∀ now q, convertAlertFiltersToFlightFilters af now = some q →
        q.priceLimit = none)
    ∧ ∀ flights, filterFlightsByAlertCriteria flights af =
        filterFlightsByAlertCriteria flights
          { route := af.route, filters := some { fs with price := none } } := by
  constructor
  · intro now q hq
    unfold convertAlertFiltersToFlightFilters at hq
    by_cases hex : translatorDateToExpired af.filters (startOfDay now) = true
    · simp [hex] at hq
    · simp only [hex, Bool.false_eq_true, if_false, Option.some.injEq] at hq
      rw [← hq]
      simp [h, h0]
  · intro flights
    unfold filterFlightsByAlertCriteria
    rw [h]
    simp only []
    apply List.filter_congr
    intro F _
    have hp : pricePredicate fs F = true := by
      unfold pricePredicate; rw [h0]; simp
    have hp2 : pricePredicate { fs with price := none } F = true := rfl
    rw [flightMatches_eq_predicates, flightMatches_eq_predicates, hp, hp2]
    unfold airlinePredicate stopsPredicate
    rfl

/-- Witness for the C10 theorem at a concrete input. -/
theorem zero_price_ceiling_claim_witness :
    (∀ now q, convertAlertFiltersToFlightFilters zeroPriceFilters now = some q →
        q.priceLimit = none)
    ∧ ∀ flights, filterFlightsByAlertCriteria flights zeroPriceFilters =
        filterFlightsByAlertCriteria flights
          { route := zeroPriceFilters.route,
            filters := some { zeroPriceCriteria with price := none } } :=
  zero_price_ceiling_claim zeroPriceFilters zeroPriceCriteria rfl rfl

/-- C3 counterexample: an alert whose alertEnd equals now is placed in
the expired group (the source tests endDate <= now), although its
alertEnd is not strictly before now; the claim would place it in the
active group. -/
theorem expiry_partition_counterexample :
    (partitionByExpiry [boundaryAlert] 120).2 = [boundaryAlert]
    ∧ (partitionByExpiry [boundaryAlert] 120).1 = []
    ∧ ¬∃ e, boundaryAlert.alertEnd = some e ∧ e < 120 := by
  refine ⟨rfl, rfl, ?_⟩
  rintro ⟨e, he, hlt⟩
  have he2 : e = (120 : Int) := by
    have h3 : (some (120 : Int) : Option Int) = some e := he
    exact ((Option.some.injEq _ _).mp h3).symm
  rw [he2] at hlt
  exact absurd hlt (lt_irrefl _)

/-- C3 amended: the expired group holds exactly the alerts whose
alertEnd is present and at or before now; all other alerts, including
those with no alertEnd, form the active group, in input order. -/
theorem expiry_partition_amended (alerts : List Alert) (now : Timestamp) :
    (partitionByExpiry alerts now).2 = alerts.filter (fun a =>
        match a.alertEnd with
        | some e => decide (e ≤ now)
        | none => false)
    ∧ (partitionByExpiry alerts now).1 = alerts.filter (fun a =>
        match a.alertEnd with
        | some e => decide (now < e)
        | none => true) := by
  induction alerts with
  | nil => exact ⟨rfl, rfl⟩
  | cons a rest ih =>
    obtain ⟨ih2, ih1⟩ := ih
    unfold partitionByExpiry
    cases ha : a.alertEnd with
    | none => simp [ha, List.filter_cons, ih1, ih2]
    | some e =>
      by_cases hle : e ≤ now
      · have hnl : ¬(now < e) := Int.not_lt.mpr hle
        simp [ha, hle, hnl, List.filter_cons, ih1, ih2]
      · have hnl : now < e := Int.not_le.mp hle
        simp [ha, hle, hnl, List.filter_cons, ih1, ih2]

/-! Helper lemmas and definitions about the Batch Processor. -/

/-- Whether a search outcome is a success. -/
def searchOk : SearchOutcome → Bool
  | .ok _ => true
  | .error _ => false

lemma fetchFlightsForAlert_eq (search : SearchOutcome) (alert : Alert)
    (now : Timestamp) (maxFlights : Nat) :
    fetchFlightsForAlert search alert now maxFlights =
      if (convertAlertFiltersToFlightFilters alert.filters now).isSome
          && searchOk search then
        some { alert := alert,
               flights := filterFlightsByAlertCriteria
                 ((okFlights search).take maxFlights) alert.filters }
      else none := by
  unfold fetchFlightsForAlert okFlights searchOk
  cases convertAlertFiltersToFlightFilters alert.filters now <;>
    cases search <;> simp

lemma mem_filterFlightsByAlertCriteria (flights : List FlightOption)
    (af : AlertFilters) (F : FlightOption)
    (h : F ∈ filterFlightsByAlertCriteria flights af) : F ∈ flights := by
  unfold filterFlightsByAlertCriteria at h
  cases haf : af.filters with
  | none => rw [haf] at h; exact h
  | some fs => rw [haf] at h; exact (List.mem_filter.mp h).1

/-- Whether one alert contributes an entry to the batch output:
its fetch succeeded and at least one flight survived filtering. -/
def alertYieldsEntry (search : Alert → SearchOutcome) (now : Timestamp)
    (maxFlights : Nat) (alert : Alert) : Bool :=
  match fetchFlightsForAlert (search alert) alert now maxFlights with
  | some result => !result.flights.isEmpty
  | none => false

/-- Entry contributed by one alert to the batch output. -/
def batchEntry (search : Alert → SearchOutcome) (maxFlights : Nat)
    (alert : Alert) : AlertWithFlights :=
  { alert := alert,
    flights := filterFlightsByAlertCriteria
      ((okFlights (search alert)).take maxFlights) alert.filters }

lemma batch_core (search : Alert → SearchOutcome) (now : Timestamp)
    (maxFlights : Nat) (l : List Alert) :
    ((l.map fun a => fetchFlightsForAlert (search a) a now maxFlights).filterMap
        id).filter (fun r => !r.flights.isEmpty) =
      (l.filter (alertYieldsEntry search now maxFlights)).map
        (batchEntry search maxFlights) := by
  induction l with
  | nil => rfl
  | cons a rest ih =>
    simp only [List.map_cons, List.filterMap_cons, List.filter_cons]
    cases hf : fetchFlightsForAlert (search a) a now maxFlights with
    | none =>
      have hy : alertYieldsEntry search now maxFlights a = false := by
        unfold alertYieldsEntry; rw [hf]
      simp only [id, hy, Bool.false_eq_true, if_false, ih]
    | some r =>
      have hr : r = batchEntry search maxFlights a := by
        have he := fetchFlightsForAlert_eq (search a) a now maxFlights
        rw [hf] at he
        by_cases hc : ((convertAlertFiltersToFlightFilters a.filters now).isSome
            && searchOk (search a)) = true
        · rw [if_pos hc] at he
          exact ((Option.some.injEq _ _).mp he)
        · rw [if_neg hc] at he
          cases he
      subst hr
      have hy : alertYieldsEntry search now maxFlights a =
          !(batchEntry search maxFlights a).flights.isEmpty := by
        unfold alertYieldsEntry; rw [hf]
      cases he : (batchEntry search maxFlights a).flights.isEmpty with
      | false =>
        have hy2 : alertYieldsEntry search now maxFlights a = true := by
          rw [hy, he]; rfl
        simp only [id, List.filter_cons, he, Bool.not_false, if_true, hy2,
          List.map_cons, ih]
      | true =>
        have hy2 : alertYieldsEntry search now maxFlights a = false := by
          rw [hy, he]; rfl
        simp only [id, List.filter_cons, he, Bool.not_true, Bool.false_eq_true,
          if_false, hy2, ih]

lemma fetchFlightDataForAlerts_eq (search : Alert → SearchOutcome)
    (alerts : List Alert) (now : Timestamp) (maxFlights : Nat) :
    fetchFlightDataForAlerts search alerts now maxFlights =
      (alerts.filter (alertYieldsEntry search now maxFlights)).map
        (batchEntry search maxFlights) := by
  unfold fetchFlightDataForAlerts
  by_cases h : alerts.isEmpty
  · rw [if_pos h]
    cases alerts with
    | nil => rfl
    | cons a rest => simp at h
  · rw [if_neg h]
    exact batch_core search now maxFlights alerts

lemma alertYieldsEntry_ok (search : Alert → SearchOutcome) (now : Timestamp)
    (maxFlights : Nat) (a : Alert)
    (h : alertYieldsEntry search now maxFlights a = true) :
    searchOk (search a) = true ∧ (batchEntry search maxFlights a).flights ≠ [] := by
  unfold alertYieldsEntry at h
  rw [fetchFlightsForAlert_eq] at h
  by_cases hc : ((convertAlertFiltersToFlightFilters a.filters now).isSome
      && searchOk (search a)) = true
  · rw [if_pos hc] at h
    refine ⟨(Bool.and_eq_true _ _ |>.mp hc).2, ?_⟩
    intro hnil
    unfold batchEntry at hnil
    simp only at hnil
    rw [hnil] at h
    simp at h
  · rw [if_neg hc] at h
    cases h

/-- C4: for a successful per-alert fetch the attached flights are
exactly the Result Filter applied to the first maxFlights collaborator
results, and nothing outside that capped prefix — so a flight ranked
past the cap is dropped even when it satisfies the criteria. -/
theorem cap_before_filter_claim (alert : Alert) (flights : List FlightOption)
    (now : Timestamp) (maxFlights : Nat)
    (h : (convertAlertFiltersToFlightFilters alert.filters now).isSome = true) :
    fetchFlightsForAlert (.ok flights) alert now maxFlights =
      some { alert := alert,
             flights := filterFlightsByAlertCriteria (flights.take maxFlights)
               alert.filters }
    ∧ ∀ result,
        fetchFlightsForAlert (.ok flights) alert now maxFlights = some result →
        ∀ F, F ∉ flights.take maxFlights → F ∉ result.flights := by
  have he := fetchFlightsForAlert_eq (.ok flights) alert now maxFlights
  have hc : ((convertAlertFiltersToFlightFilters alert.filters now).isSome
      && searchOk (.ok flights)) = true := by
    rw [h]; rfl
  rw [if_pos hc] at he
  refine ⟨he, ?_⟩
  intro result hres F hnot hmem
  rw [he] at hres
  have hresult := (Option.some.injEq _ _).mp hres
  rw [← hresult] at hmem
  exact hnot (mem_filterFlightsByAlertCriteria _ _ _ hmem)

/-- Six concrete flights for the C4 witness; the sixth satisfies every
criterion yet is dropped by the cap. -/
def sampleFlights : List FlightOption :=
  [{ totalPrice := 250 }, { totalPrice := 280 }, { totalPrice := 350 },
   { totalPrice := 400 }, { totalPrice := 450 }, { totalPrice := 120 }]

/-- Alert with a route and no criteria bundle. -/
def simpleAlert : Alert :=
  { id := "alert-2", filters := { route := { «from» := "SFO", «to» := "JFK" } } }

/-- Witness for the C4 theorem at a concrete input. -/
theorem cap_before_filter_claim_witness :
    (fetchFlightsForAlert (.ok sampleFlights) simpleAlert 0 5 =
      some { alert := simpleAlert,
             flights := filterFlightsByAlertCriteria (sampleFlights.take 5)
               simpleAlert.filters })
    ∧ ∀ result,
        fetchFlightsForAlert (.ok sampleFlights) simpleAlert 0 5 = some result →
        ∀ F, F ∉ sampleFlights.take 5 → F ∉ result.flights :=
  cap_before_filter_claim simpleAlert sampleFlights 0 5 rfl

/-- C5: the Batch Processor is total (collaborator failures are mapped
to absent entries, never propagated) and returns exactly one entry, in
input order, for each alert whose fetch succeeded with at least one
flight left after filtering; entries always come from successful
searches with non-empty flights, and removing the failing alerts from
the input does not change the output. -/
theorem batch_fault_isolation_claim (search : Alert → SearchOutcome)
    (alerts : List Alert) (now : Timestamp) (maxFlights : Nat) :
    fetchFlightDataForAlerts search alerts now maxFlights =
      (alerts.filter (alertYieldsEntry search now maxFlights)).map
        (batchEntry search maxFlights)
    ∧ (∀ entry ∈ fetchFlightDataForAlerts search alerts now maxFlights,
        searchOk (search entry.alert) = true ∧ entry.flights ≠ [])
    ∧ fetchFlightDataForAlerts search alerts now maxFlights =
        fetchFlightDataForAlerts search
          (alerts.filter fun a => searchOk (search a)) now maxFlights := by
  refine ⟨fetchFlightDataForAlerts_eq search alerts now maxFlights, ?_, ?_⟩
  · intro entry hmem
    rw [fetchFlightDataForAlerts_eq] at hmem
    obtain ⟨a, ha, rfl⟩ := List.mem_map.mp hmem
    have hy := (List.mem_filter.mp ha).2
    have := alertYieldsEntry_ok search now maxFlights a hy
    exact ⟨this.1, this.2⟩
  · rw [fetchFlightDataForAlerts_eq, fetchFlightDataForAlerts_eq,
      List.filter_filter]
    congr 1
    apply List.filter_congr
    intro a _
    cases hy : alertYieldsEntry search now maxFlights a with
    | false => simp
    | true =>
      have := (alertYieldsEntry_ok search now maxFlights a hy).1
      rw [this]
      rfl

/-! Lifecycle status monotonicity. -/

lemma expiredAlertUpdates_status (alerts : List Alert) (now : Timestamp) :
    ∀ pr ∈ expiredAlertUpdates alerts now,
      pr.2 = { status := some .completed } := by
  intro pr hpr
  unfold expiredAlertUpdates at hpr
  obtain ⟨a, _, rfl⟩ := List.mem_map.mp hpr
  rfl

lemma foldl_completed_updates (ps : List UpdateAlertInput)
    (h : ∀ p ∈ ps, p.status = some .completed) :
    List.foldl applyStatusUpdate .completed ps = .completed := by
  induction ps with
  | nil => rfl
  | cons p rest ih =>
    rw [List.foldl_cons]
    have hp := h p (List.mem_cons_self _ _)
    have happ : applyStatusUpdate .completed p = .completed := by
      unfold applyStatusUpdate; rw [hp]; rfl
    rw [happ]
    exact ih fun q hq => h q (List.mem_cons_of_mem _ hq)

/-- C9: every status update issued by the lifecycle manager sets the
status to completed (never to active), and folding any sequence of
lifecycle-manager updates over a completed alert leaves it completed —
the active to completed order is monotonic. -/
theorem status_monotonic_claim (ps : List UpdateAlertInput)
    (h : ∀ p ∈ ps, ∃ alerts now idp, (idp, p) ∈ expiredAlertUpdates alerts now) :
    (∀ p ∈ ps, p.status = some .completed)
    ∧ List.foldl applyStatusUpdate .completed ps = .completed
    ∧ List.foldl applyStatusUpdate .completed ps ≠ .active := by
  have hall : ∀ p ∈ ps, p.status = some .completed := by
    intro p hp
    obtain ⟨alerts, now, idp, hmem⟩ := h p hp
    have := expiredAlertUpdates_status alerts now (idp, p) hmem
    rw [show p = ({ status := some .completed } : UpdateAlertInput) from this]
  refine ⟨hall, foldl_completed_updates ps hall, ?_⟩
  rw [foldl_completed_updates ps hall]
  intro hcontr
  cases hcontr

/-- Witness for the C9 theorem at a concrete input: the single update
issued for boundaryAlert at its expiry instant. -/
theorem status_monotonic_claim_witness :
    (∀ p ∈ [({ status := some .completed } : UpdateAlertInput)],
      p.status = some .completed)
    ∧ List.foldl applyStatusUpdate .completed
        [({ status := some .completed } : UpdateAlertInput)] = .completed
    ∧ List.foldl applyStatusUpdate .completed
        [({ status := some .completed } : UpdateAlertInput)] ≠ .active :=
  status_monotonic_claim _ (by
    intro p hp
    refine ⟨[boundaryAlert], 120, "alert-1", ?_⟩
    have hp2 : p = ({ status := some .completed } : UpdateAlertInput) := by
      simpa using hp
    rw [hp2]
    rw [show expiredAlertUpdates [boundaryAlert] 120 =
      [("alert-1", ({ status := some .completed } : UpdateAlertInput))] from rfl]
    exact List.mem_singleton.mpr rfl)

/-! Markup stripping and escaping for the Notification Content
Pipeline.  The formatters module of the repository (escapeHtml,
stripHtml, formatDate, formatDateTime, formatCurrency, joinWithAnd) is
absent from the snapshot; the functions below model it from the spec. -/

/-- Modelled from the spec: the formatters module is missing; markup
stripping scans the html, dropping every tag (characters from an
opening angle bracket to the matching closing one) and keeping text. -/
def stripAux : List Char → Bool → List Char
  | [], _ => []
  | c :: cs, inTag =>
    if c = '<' then stripAux cs true
    else if c = '>' then stripAux cs false
    else if inTag then stripAux cs true
    else c :: stripAux cs false

/-- Tag-scanner state left after consuming a character list. -/
def tagState : List Char → Bool → Bool
  | [], s => s
  | c :: cs, s =>
    if c = '<' then tagState cs true
    else if c = '>' then tagState cs false
    else tagState cs s

/-- Modelled from the spec: stripHtml of the missing formatters module;
the plain-text body is the html with markup stripped. -/
def stripHtml (s : String) : String := ⟨stripAux s.data false⟩

/-- Replacement of one character under html escaping. -/
def escapeHtmlChar (c : Char) : List Char :=
  if c = '&' then "&amp;".data
  else if c = '<' then "&lt;".data
  else if c = '>' then "&gt;".data
  else if c = Char.ofNat 34 then "&quot;".data
  else if c = Char.ofNat 39 then "&#39;".data
  else [c]

/-- Modelled from the spec: escapeHtml of the missing formatters
module, and likewise the text escaping renderToStaticMarkup applies to
every text node; standard html entity escaping. -/
def escapeHtml (s : String) : String := ⟨s.data.flatMap escapeHtmlChar⟩

/-- Character lists free of angle brackets. -/
def angleFree (l : List Char) : Bool := l.all fun c => c != '<' && c != '>'

lemma stripAux_append (a b : List Char) (s : Bool) :
    stripAux (a ++ b) s = stripAux a s ++ stripAux b (tagState a s) := by
  induction a generalizing s with
  | nil => rfl
  | cons c cs ih =>
    simp only [List.cons_append, stripAux, tagState]
    by_cases h1 : c = '<'
    · simp [h1, ih]
    · by_cases h2 : c = '>'
      · simp [h1, h2, ih]
      · cases s
        · simp [h1, h2, ih]
        · simp [h1, h2, ih]

lemma tagState_append (a b : List Char) (s : Bool) :
    tagState (a ++ b) s = tagState b (tagState a s) := by
  induction a generalizing s with
  | nil => rfl
  | cons c cs ih =>
    simp only [List.cons_append, tagState]
    by_cases h1 : c = '<'
    · simp [h1, ih]
    · by_cases h2 : c = '>'
      · simp [h1, h2, ih]
      · simp [h1, h2, ih]

lemma stripAux_angleFree_false (l : List Char) (h : angleFree l = true) :
    stripAux l false = l ∧ tagState l false = false := by
  induction l with
  | nil => exact ⟨rfl, rfl⟩
  | cons c cs ih =>
    unfold angleFree at h
    rw [List.all_cons] at h
    obtain ⟨hc, hcs⟩ := Bool.and_eq_true _ _ |>.mp h
    obtain ⟨hc1, hc2⟩ := Bool.and_eq_true _ _ |>.mp hc
    have hne1 : c ≠ '<' := by simpa using hc1
    have hne2 : c ≠ '>' := by simpa using hc2
    have := ih hcs
    simp only [stripAux, tagState, hne1, hne2, if_false, if_neg hne1,
      if_neg hne2]
    exact ⟨by simp [this.1], this.2⟩

lemma stripAux_angleFree_true (l : List Char) (h : angleFree l = true) :
    stripAux l true = [] ∧ tagState l true = true := by
  induction l with
  | nil => exact ⟨rfl, rfl⟩
  | cons c cs ih =>
    unfold angleFree at h
    rw [List.all_cons] at h
    obtain ⟨hc, hcs⟩ := Bool.and_eq_true _ _ |>.mp h
    obtain ⟨hc1, hc2⟩ := Bool.and_eq_true _ _ |>.mp hc
    have hne1 : c ≠ '<' := by simpa using hc1
    have hne2 : c ≠ '>' := by simpa using hc2
    have := ih hcs
    simp only [stripAux, tagState, if_neg hne1, if_neg hne2, if_pos rfl]
    exact this

lemma angleFree_append (a b : List Char) :
    angleFree (a ++ b) = (angleFree a && angleFree b) := List.all_append

lemma escapeHtmlChar_angleFree (c : Char) :
    angleFree (escapeHtmlChar c) = true := by
  unfold escapeHtmlChar
  split_ifs with h1 h2 h3 h4 h5
  · decide
  · decide
  · decide
  · decide
  · decide
  · unfold angleFree
    rw [List.all_cons]
    simp [h2, h3]

lemma escapeHtml_angleFree (s : String) :
    angleFree (escapeHtml s).data = true := by
  show angleFree (s.data.flatMap escapeHtmlChar) = true
  induction s.data with
  | nil => rfl
  | cons c cs ih =>
    rw [List.flatMap_cons, angleFree_append, escapeHtmlChar_angleFree c, ih]
    rfl

/-- Markup-stripping contract between an html fragment and its text
content: stripping the fragment from outside-tag state yields exactly
the text, leaving the scanner outside a tag. -/
def Strips (html text : String) : Prop :=
  stripAux html.data false = text.data ∧ tagState html.data false = false

lemma Strips.append {h1 t1 h2 t2 : String} (a : Strips h1 t1)
    (b : Strips h2 t2) : Strips (h1 ++ h2) (t1 ++ t2) := by
  obtain ⟨e1, s1⟩ := a
  obtain ⟨e2, s2⟩ := b
  constructor
  · rw [String.data_append, String.data_append, stripAux_append, e1, s1, e2]
  · rw [String.data_append, tagState_append, s1, s2]

lemma Strips.empty : Strips "" "" := ⟨rfl, rfl⟩

lemma Strips.lit (s : String) (h : angleFree s.data = true) : Strips s s :=
  ⟨(stripAux_angleFree_false _ h).1, (stripAux_angleFree_false _ h).2⟩

lemma Strips.escape (s : String) : Strips (escapeHtml s) (escapeHtml s) :=
  Strips.lit _ (escapeHtml_angleFree s)

/-- Opening tag markup. -/
def tagOpen (n attrs : String) : String := "<" ++ n ++ attrs ++ ">"

/-- Closing tag markup. -/
def tagClose (n : String) : String := "</" ++ n ++ ">"

/-- Element with children, as renderToStaticMarkup emits it. -/
def el (n attrs inner : String) : String := tagOpen n attrs ++ inner ++ tagClose n

/-- Self-closing element, as renderToStaticMarkup emits void elements. -/
def voidEl (n attrs : String) : String := "<" ++ n ++ attrs ++ "/>"

lemma strips_tagOpen (n attrs : String)
    (h : angleFree (n ++ attrs).data = true) : Strips (tagOpen n attrs) "" := by
  have hx : (tagOpen n attrs).data = '<' :: ((n ++ attrs).data ++ ['>']) := by
    simp [tagOpen, String.data_append, List.append_assoc]
  constructor
  · show stripAux (tagOpen n attrs).data false = []
    rw [hx]
    show stripAux ((n ++ attrs).data ++ ['>']) true = []
    rw [stripAux_append, (stripAux_angleFree_true _ h).1,
      (stripAux_angleFree_true _ h).2]
    rfl
  · show tagState (tagOpen n attrs).data false = false
    rw [hx]
    show tagState ((n ++ attrs).data ++ ['>']) true = false
    rw [tagState_append, (stripAux_angleFree_true _ h).2]
    rfl

lemma strips_tagClose (n : String) (h : angleFree n.data = true) :
    Strips (tagClose n) "" := by
  have hx : (tagClose n).data = '<' :: '/' :: (n.data ++ ['>']) := by
    simp [tagClose, String.data_append, List.append_assoc]
  constructor
  · show stripAux (tagClose n).data false = []
    rw [hx]
    show stripAux ('/' :: (n.data ++ ['>'])) true = []
    show stripAux (n.data ++ ['>']) true = []
    rw [stripAux_append, (stripAux_angleFree_true _ h).1,
      (stripAux_angleFree_true _ h).2]
    rfl
  · show tagState (tagClose n).data false = false
    rw [hx]
    show tagState ('/' :: (n.data ++ ['>'])) true = false
    show tagState (n.data ++ ['>']) true = false
    rw [tagState_append, (stripAux_angleFree_true _ h).2]
    rfl

lemma strips_voidEl (n attrs : String)
    (h : angleFree (n ++ attrs).data = true) : Strips (voidEl n attrs) "" := by
  have hx : (voidEl n attrs).data = '<' :: ((n ++ attrs).data ++ ['/', '>']) := by
    simp [voidEl, String.data_append, List.append_assoc]
  constructor
  · show stripAux (voidEl n attrs).data false = []
    rw [hx]
    show stripAux ((n ++ attrs).data ++ ['/', '>']) true = []
    rw [stripAux_append, (stripAux_angleFree_true _ h).1,
      (stripAux_angleFree_true _ h).2]
    rfl
  · show tagState (voidEl n attrs).data false = false
    rw [hx]
    show tagState ((n ++ attrs).data ++ ['/', '>']) true = false
    rw [tagState_append, (stripAux_angleFree_true _ h).2]
    rfl

lemma string_empty_append (s : String) : "" ++ s = s := by
  apply String.ext
  rw [String.data_append]
  rfl

lemma string_append_empty (s : String) : s ++ "" = s := by
  apply String.ext
  rw [String.data_append]
  exact List.append_nil _

lemma Strips.el_tag {inner t : String} (n attrs : String)
    (h : angleFree (n ++ attrs).data = true) (hi : Strips inner t) :
    Strips (el n attrs inner) t := by
  have hn : angleFree n.data = true := by
    have := h
    rw [String.data_append, angleFree_append] at this
    exact (Bool.and_eq_true _ _ |>.mp this).1
  have := (strips_tagOpen n attrs h).append (hi.append (strips_tagClose n hn))
  unfold el
  rw [string_empty_append] at this
  rw [show t ++ "" = t from string_append_empty t] at this
  rw [← String.append_assoc] at this
  exact this

/-- Concatenation of html fragments, as children render in order. -/
def concatS : List String → String
  | [] => ""
  | s :: rest => s ++ concatS rest

lemma Strips.concat {α : Type} (f g : α → String) (xs : List α)
    (h : ∀ x ∈ xs, Strips (f x) (g x)) :
    Strips (concatS (xs.map f)) (concatS (xs.map g)) := by
  induction xs with
  | nil => exact Strips.empty
  | cons x rest ih =>
    simp only [List.map_cons, concatS]
    exact (h x (List.mem_cons_self _ _)).append
      (ih fun y hy => h y (List.mem_cons_of_mem _ hy))

lemma Strips.concat_pair {h1 t1 h2 t2 : String} (a : Strips h1 t1)
    (b : Strips h2 t2) : Strips (concatS [h1, h2]) (t1 ++ t2) := by
  have := a.append (b.append Strips.empty)
  simpa [concatS, string_append_empty] using this

/-! Notification payload data model (lib/notifications/types). -/

/-- Monetary amount with currency code, as in the alert descriptor. -/
structure PriceAmount where
  amount : Int
  currency : String
deriving DecidableEq, Repr

/-- Human-readable descriptor of one alert, built for the email. -/
structure AlertDescriptor where
  id : String
  label : String
  origin : String
  destination : String
  seatType : Option String := none
  stops : Option String := none
  airlines : Option (List String) := none
  priceLimit : Option PriceAmount := none
deriving DecidableEq, Repr

/-- One alert with its flights and generation timestamp, as summarised
in the daily digest payload. -/
structure DailyAlertSummary where
  alert : AlertDescriptor
  flights : List FlightOption
  generatedAt : String
deriving DecidableEq, Repr

/-- Daily price-update notification payload. -/
structure DailyPriceUpdateEmail where
  summaryDate : String
  alerts : List DailyAlertSummary
deriving DecidableEq, Repr

/-- Rendered email artifact handed to the dispatcher. -/
structure RenderedEmail where
  subject : String
  html : String
  text : String
deriving DecidableEq, Repr

/-! Formatters.  The formatters module is absent from the snapshot;
these are modelled from the spec. -/

/-- Modelled from the spec: formatDate of the missing formatters
module; human-readable text derived from the date string, modelled as
the date string itself. -/
def formatDate (s : String) : String := s

/-- Modelled from the spec: formatDateTime of the missing formatters
module (the source also passes locale options); text derived from the
timestamp string, modelled as the string itself. -/
def formatDateTime (s : String) : String := s

/-- Date.prototype.toLocaleString, an external runtime formatter,
modelled as the identity on the stored datetime string. -/
def localeDateTime (s : String) : String := s

/-- Modelled from the spec: formatCurrency of the missing formatters
module; amount followed by the currency code. -/
def formatCurrency (amount : Int) (currency : String) : String :=
  toString amount ++ " " ++ currency

/-- Modelled from the spec: joinWithAnd of the missing formatters
module; comma-separated list with a final and. -/
def joinWithAnd : List String → String
  | [] => ""
  | [x] => x
  | [x, y] => x ++ " and " ++ y
  | x :: rest => x ++ ", " ++ joinWithAnd rest

/-- renderEmail of templates/base: the text body is always the html
with markup stripped. -/
def renderEmail (subject html : String) : RenderedEmail :=
  { subject := subject, html := html, text := stripHtml html }

/-! Email components (templates/components), rendered to html strings
the way renderToStaticMarkup emits them; every text node is escaped. -/

/-- TextBlock component: optional h3 headline and a p body. -/
def TextBlockHtml (headline : Option String) (body : String) : String :=
  el "div" "" (concatS
    [(match headline with
      | some h =>
          el "h3" " style=\"margin:0 0 6px;font-size:16px;font-weight:600;color:#0f172a\""
            (escapeHtml h)
      | none => ""),
     el "p" " style=\"margin:0;font-size:14px;line-height:1.6;color:#475569\""
       (escapeHtml body)])

/-- Text content of TextBlockHtml. -/
def TextBlockText (headline : Option String) (body : String) : String :=
  concatS
    [(match headline with
      | some h => escapeHtml h
      | none => ""),
     escapeHtml body]

/-- BadgeRow component: one span per badge label. -/
def BadgeRowHtml (items : List String) : String :=
  el "div" " style=\"display:flex;flex-wrap:wrap;gap:8px\""
    (concatS (items.map fun label =>
      el "span" " style=\"display:inline-block;padding:4px 10px;font-size:12px;border-radius:9999px;background:#eef2ff;color:#4338ca\""
        (escapeHtml label)))

/-- Text content of BadgeRowHtml. -/
def BadgeRowText (items : List String) : String :=
  concatS (items.map escapeHtml)

/-- Props of one flight card. -/
structure FlightCardProps where
  title : String
  description : String
  highlights : List (String × String)
  action : Option (String × String) := none
deriving DecidableEq, Repr

/-- FlightCard component: header with title and description, a list of
highlights, and an optional action link. -/
def FlightCardHtml (card : FlightCardProps) : String :=
  el "div" " style=\"border:1px solid #e2e8f0;border-radius:12px;padding:20px;background:#ffffff\""
    (concatS
      [el "div" " style=\"display:flex;justify-content:space-between;gap:12px\""
         (el "div" ""
           (concatS
             [el "h3" " style=\"margin:0 0 6px;font-size:16px;color:#0f172a\""
                (escapeHtml card.title),
              el "p" " style=\"margin:0;font-size:13px;color:#64748b\""
                (escapeHtml card.description)])),
       el "ul" " style=\"list-style:none;padding:0;margin:16px 0 0;display:grid;gap:8px\""
         (concatS (card.highlights.map fun hv =>
           el "li" " style=\"font-size:13px;color:#475569\""
             (concatS
               [el "strong" " style=\"color:#0f172a\"" (escapeHtml (hv.1 ++ ":")),
                escapeHtml (" " ++ hv.2)]))),
       match card.action with
       | some la =>
           el "div" " style=\"margin-top:16px\""
             (el "a" (" href=\x22" ++ la.2 ++ "\x22") (escapeHtml la.1))
       | none => ""])

/-- Text content of FlightCardHtml when the card carries no action. -/
def FlightCardText (card : FlightCardProps) : String :=
  concatS
    [concatS [escapeHtml card.title, escapeHtml card.description],
     concatS (card.highlights.map fun hv =>
       concatS [escapeHtml (hv.1 ++ ":"), escapeHtml (" " ++ hv.2)]),
     ""]

/-- FlightCardGrid component: a grid of flight cards. -/
def FlightCardGridHtml (cards : List FlightCardProps) : String :=
  el "div" " style=\"display:grid;gap:16px\""
    (concatS (cards.map FlightCardHtml))

/-- Text content of FlightCardGridHtml for action-free cards. -/
def FlightCardGridText (cards : List FlightCardProps) : String :=
  concatS (cards.map FlightCardText)

/-- EmailSection component: optional h2 title, optional description
paragraph and a grid of children. -/
def EmailSectionHtml (title description : Option String)
    (children : String) : String :=
  el "section" " style=\"padding:28px;border-bottom:1px solid #e2e8f0\""
    (concatS
      [(match title with
        | some t =>
            el "h2" " style=\"margin:0 0 8px;font-size:18px;font-weight:600;color:#0f172a\""
              (escapeHtml t)
        | none => ""),
       (match description with
        | some d =>
            el "p" " style=\"margin:0 0 16px;font-size:14px;color:#64748b\""
              (escapeHtml d)
        | none => ""),
       el "div" " style=\"display:grid;gap:16px\"" children])

/-- Text content of EmailSectionHtml. -/
def EmailSectionText (title description : Option String)
    (childrenText : String) : String :=
  concatS
    [(match title with
      | some t => escapeHtml t
      | none => ""),
     (match description with
      | some d => escapeHtml d
      | none => ""),
     childrenText]

/-- Footer sentence of the shared email layout. -/
def footerText : String :=
  "You are receiving this update because you subscribed to flight alerts."

/-- EmailLayout component: html document with head metadata, hidden
preview text, the content container and the footer. -/
def EmailLayoutHtml (previewText : String) (children : String) : String :=
  el "html" " lang=\x22en\x22"
    (concatS
      [el "head" ""
         (concatS
           [voidEl "meta" " charSet=\x22UTF-8\x22",
            voidEl "meta" " name=\x22viewport\x22 content=\x22width=device-width, initial-scale=1\x22",
            el "title" "" (escapeHtml "Flight Alerts")]),
       el "body" " style=\"font-family:sans-serif;margin:0;padding:0;background-color:#f4f6fb;color:#0f172a\""
         (concatS
           [el "div" " style=\"display:none;max-height:0;overflow:hidden\""
              (escapeHtml previewText),
            el "div" " style=\"width:100%;padding:24px 0\""
              (el "div" " style=\"max-width:640px;margin:0 auto;background:#ffffff;border-radius:12px;overflow:hidden\""
                (concatS
                  [children,
                   el "div" " style=\"padding:24px 28px;font-size:13px;color:#64748b;border-top:1px solid #e2e8f0\""
                     (escapeHtml footerText)]))])])

/-- Text content of EmailLayoutHtml. -/
def EmailLayoutText (previewText : String) (childrenText : String) : String :=
  concatS
    [concatS ["", "", escapeHtml "Flight Alerts"],
     concatS [escapeHtml previewText, concatS [childrenText, escapeHtml footerText]]]

/-- wrapWithLayout of blueprint-utils: doctype plus the rendered
layout. -/
def wrapWithLayout (previewText : String) (children : String) : String :=
  "<!DOCTYPE html>" ++ EmailLayoutHtml previewText children

/-! Fallback rendering of the daily price-update email
(templates/daily-price-update). -/

/-- Highlights of one flight card (buildFlightHighlights of
templates/components): price, duration, stops, and departure and
arrival when legs exist. -/
def buildFlightHighlights (flight : FlightOption) : List (String × String) :=
  let firstLeg := flight.slices.head?.bind fun sl => sl.legs.head?
  let lastLeg := flight.slices.getLast?.bind fun sl => sl.legs.getLast?
  let durationMinutes : Int :=
    flight.slices.foldl (fun acc sl => acc + sl.durationMinutes.getD 0) 0
  let totalStops : Nat := flight.slices.foldl (fun acc sl => acc + sl.stops) 0
  [("Price", toString flight.totalPrice ++ " " ++ flight.currency),
   ("Duration",
    toString (durationMinutes.fdiv 60) ++ "h " ++
      toString (durationMinutes.emod 60) ++ "m"),
   ("Stops",
    if totalStops = 0 then "Nonstop"
    else toString totalStops ++ " stop" ++ (if totalStops > 1 then "s" else ""))]
  ++ (match firstLeg with
      | some leg =>
          [("Departure",
            leg.departureAirportCode ++ " • " ++
              localeDateTime leg.departureDateTime)]
      | none => [])
  ++ (match lastLeg with
      | some leg =>
          [("Arrival",
            leg.arrivalAirportCode ++ " • " ++
              localeDateTime leg.arrivalDateTime)]
      | none => [])

/-- Badge labels of one alert descriptor in the fallback section
(seat type, stops, airlines, price ceiling; absent ones filtered
out). -/
def fallbackBadges (a : AlertDescriptor) : List String :=
  (match a.seatType with
   | some s => [s]
   | none => []) ++
  (match a.stops with
   | some s => [s]
   | none => []) ++
  (match a.airlines with
   | some as => if as.length > 0 then ["Airlines: " ++ joinWithAnd as] else []
   | none => []) ++
  (match a.priceLimit with
   | some pl => ["Max " ++ formatCurrency pl.amount pl.currency]
   | none => [])

/-- Flight cards of one alert summary in the fallback section. -/
def fallbackCards (summary : DailyAlertSummary) : List FlightCardProps :=
  summary.flights.enum.map fun p =>
    { title := "Option " ++ toString (p.1 + 1)
      description := summary.alert.origin ++ " → " ++ summary.alert.destination
      highlights := buildFlightHighlights p.2 }

/-- Sentence used when the daily digest has no alert summaries. -/
def noMatchesText : String :=
  "No new flight matches were found in the past day."

/-- One fallback section for an alert summary. -/
def fallbackAlertSection (summary : DailyAlertSummary) : String :=
  EmailSectionHtml (some summary.alert.label)
    (some (summary.alert.origin ++ " → " ++ summary.alert.destination ++
      " • Updated " ++ formatDateTime summary.generatedAt))
    (concatS
      [BadgeRowHtml (fallbackBadges summary.alert),
       FlightCardGridHtml (fallbackCards summary)])

/-- renderFallbackSections of templates/daily-price-update: a no-match
section for an empty digest, one section per alert summary
otherwise. -/
def renderFallbackSections (payload : DailyPriceUpdateEmail) : String :=
  if payload.alerts.isEmpty then
    EmailSectionHtml none none (TextBlockHtml none noMatchesText)
  else
    concatS (payload.alerts.map fallbackAlertSection)

/-- renderFallbackEmail of templates/daily-price-update: summary header
section followed by the fallback sections, wrapped in the layout. -/
def renderFallbackEmail (payload : DailyPriceUpdateEmail)
    (subject previewText : String) : RenderedEmail :=
  renderEmail subject
    (wrapWithLayout previewText
      (concatS
        [EmailSectionHtml (some "Daily flight price update") none
          (TextBlockHtml none
            ("Summary for " ++ escapeHtml (formatDate payload.summaryDate))),
         renderFallbackSections payload]))

/-! EmailBlueprint data model and schema validation
(lib/notifications/ai-email-schemas). -/

/-- Optional call to action of the blueprint metadata. -/
structure CallToAction where
  label : String
  url : Option String := none
deriving DecidableEq, Repr

/-- Metadata of an AI-produced blueprint. -/
structure BlueprintMetadata where
  subject : String
  previewText : String
  intro : String
  callToAction : Option CallToAction := none
  personalization : Option String := none
deriving DecidableEq, Repr

/-- Typed component of a blueprint section (discriminated union). -/
inductive EmailComponent where
  | text (id : String) (headline : Option String) (body : String) (tone : String)
  | flightCard (id : String) (title : String) (description : String)
      (highlights : List (String × String)) (action : Option (String × String))
  | chart (id : String) (title : String) (chartType : String)
      (unit : Option String) (data : List (String × Int)) (summary : String)
  | badgeRow (id : String) (items : List String)
deriving DecidableEq, Repr

/-- Section of a blueprint. -/
structure BlueprintSection where
  id : String
  title : Option String := none
  description : Option String := none
  components : List EmailComponent
deriving DecidableEq, Repr

/-- AI-produced structured email content. -/
structure EmailBlueprint where
  metadata : BlueprintMetadata
  sections : List BlueprintSection
deriving DecidableEq, Repr

/-- Zod bounds of the blueprint metadata schema. -/
def validMetadata (m : BlueprintMetadata) : Bool :=
  1 ≤ m.subject.length && m.subject.length ≤ 120 &&
  (1 ≤ m.previewText.length && m.previewText.length ≤ 180) &&
  (1 ≤ m.intro.length && m.intro.length ≤ 600) &&
  (match m.callToAction with
   | some c => 1 ≤ c.label.length && c.label.length ≤ 60
   | none => true) &&
  (match m.personalization with
   | some p => p.length ≤ 240
   | none => true)

/-- Zod bounds of one blueprint component schema.  The url format
check of the external zod url validator is not modelled. -/
def validComponent : EmailComponent → Bool
  | .text id headline body tone =>
      1 ≤ id.length &&
      (match headline with
       | some h => 1 ≤ h.length && h.length ≤ 120
       | none => true) &&
      (1 ≤ body.length && body.length ≤ 800) &&
      ["concise", "detailed", "urgent", "celebratory"].contains tone
  | .flightCard id title description highlights action =>
      1 ≤ id.length &&
      (1 ≤ title.length && title.length ≤ 120) &&
      (1 ≤ description.length && description.length ≤ 240) &&
      (1 ≤ highlights.length && highlights.length ≤ 6) &&
      highlights.all (fun hv =>
        1 ≤ hv.1.length && hv.1.length ≤ 60 &&
        (1 ≤ hv.2.length && hv.2.length ≤ 120)) &&
      (match action with
       | some la => 1 ≤ la.1.length && la.1.length ≤ 50
       | none => true)
  | .chart id title chartType unit data summary =>
      1 ≤ id.length &&
      (1 ≤ title.length && title.length ≤ 120) &&
      ["sparkline", "bar"].contains chartType &&
      (match unit with
       | some u => ["usd", "minutes", "percent", "count"].contains u
       | none => true) &&
      (2 ≤ data.length && data.length ≤ 20) &&
      data.all (fun p => 1 ≤ p.1.length && p.1.length ≤ 40) &&
      (1 ≤ summary.length && summary.length ≤ 200)
  | .badgeRow id items =>
      1 ≤ id.length &&
      (1 ≤ items.length && items.length ≤ 10) &&
      items.all (fun l => 1 ≤ l.length && l.length ≤ 40)

/-- Zod bounds of one blueprint section schema. -/
def validSection (s : BlueprintSection) : Bool :=
  1 ≤ s.id.length &&
  (match s.title with
   | some t => 1 ≤ t.length && t.length ≤ 120
   | none => true) &&
  (match s.description with
   | some d => 1 ≤ d.length && d.length ≤ 240
   | none => true) &&
  (1 ≤ s.components.length && s.components.length ≤ 6) &&
  s.components.all validComponent

/-- Zod bounds of the whole blueprint schema. -/
def validBlueprint (b : EmailBlueprint) : Bool :=
  validMetadata b.metadata &&
  (1 ≤ b.sections.length && b.sections.length ≤ 6) &&
  b.sections.all validSection

/-- EmailBlueprintSchema.safeParse on a structurally-parsed candidate:
the candidate when it meets the schema bounds, none otherwise. -/
def blueprintSafeParse (b : EmailBlueprint) : Option EmailBlueprint :=
  if validBlueprint b then some b else none

/-! Blueprint rendering (templates/blueprint-utils and the blueprint
branch of templates/daily-price-update). -/

/-- ChartBlock value formatting (formatValue of components/chart). -/
def chartFormatValue (value : Int) (unit : Option String) : String :=
  match unit with
  | none => toString value
  | some u =>
      if u = "usd" then toString value ++ " USD"
      else if u = "minutes" then toString value ++ " min"
      else if u = "percent" then toString value ++ "%"
      else toString value

/-- ChartBlock component: title, summary and one table row per data
point with a proportional bar. -/
def ChartBlockHtml (title summary : String) (unit : Option String)
    (chartType : String) (data : List (String × Int)) : String :=
  let maxValue := ((data.map Prod.snd).max?).getD 0
  let minValue := ((data.map Prod.snd).min?).getD 0
  el "div" " style=\"border:1px solid #e2e8f0;border-radius:12px;padding:20px;background:#f8fafc\""
    (concatS
      [el "h3" " style=\"margin:0 0 8px;font-size:16px;color:#0f172a\""
         (escapeHtml title),
       el "p" " style=\"margin:0 0 16px;font-size:13px;color:#475569\""
         (escapeHtml summary),
       el "table" " role=\x22presentation\x22 style=\"width:100%;border-collapse:collapse\""
         (el "tbody" ""
           (concatS (data.map fun point =>
             let percentage : Int :=
               if maxValue = minValue then 100
               else ((point.2 - minValue) * 100).fdiv (maxValue - minValue)
             el "tr" ""
               (concatS
                 [el "td" " style=\"padding:6px 8px;font-size:12px;color:#64748b\""
                    (escapeHtml point.1),
                  el "td" " style=\"width:60%;padding:6px 8px\""
                    (el "div" " style=\"height:8px;border-radius:9999px;background:#e2e8f0;overflow:hidden\""
                      (el "div"
                        (" style=\"width:" ++ toString (max 6 percentage) ++
                          "%;background:" ++
                          (if chartType = "sparkline" then "#60a5fa" else "#818cf8") ++
                          ";height:100%\"") "")),
                  el "td" " style=\"padding:6px 0;font-size:12px;color:#0f172a;text-align:right\""
                    (escapeHtml (chartFormatValue point.2 unit))]))))])

/-- Flush of the pending flight cards in renderSectionsFromBlueprint:
nothing for an empty group, one grid otherwise. -/
def flushCardsHtml (pending : List FlightCardProps) : String :=
  if pending.isEmpty then "" else FlightCardGridHtml pending

/-- Component walk of renderSectionsFromBlueprint: consecutive flight
cards are grouped into one grid, other components flush the group. -/
def renderComponentsGrouped :
    List EmailComponent → List FlightCardProps → String
  | [], pending => flushCardsHtml pending
  | c :: rest, pending =>
    match c with
    | .flightCard _ title description highlights action =>
        renderComponentsGrouped rest
          (pending ++ [{ title := title, description := description,
                         highlights := highlights, action := action }])
    | .text _ headline body _ =>
        flushCardsHtml pending ++ TextBlockHtml headline body ++
          renderComponentsGrouped rest []
    | .badgeRow _ items =>
        flushCardsHtml pending ++ BadgeRowHtml items ++
          renderComponentsGrouped rest []
    | .chart _ title chartType unit data summary =>
        flushCardsHtml pending ++
          ChartBlockHtml title summary unit chartType data ++
          renderComponentsGrouped rest []

/-- renderSectionsFromBlueprint of blueprint-utils, one section at a
time. -/
def renderSectionFromBlueprint (s : BlueprintSection) : String :=
  EmailSectionHtml s.title s.description (renderComponentsGrouped s.components [])

/-- renderCallToActionBlock of blueprint-utils: a text block without a
url, an anchor button with one. -/
def renderCallToActionBlock (cta : CallToAction) : String :=
  match cta.url with
  | none => TextBlockHtml none cta.label
  | some url =>
      el "div" " style=\"margin-top:8px\""
        (el "a" (" href=\x22" ++ url ++ "\x22") (escapeHtml cta.label))

/-- Blueprint branch of renderDailyPriceUpdateEmail: blueprint subject
and preview (present after validation), intro, sections, call to
action and personalization wrapped in the layout.  Truthiness of the
metadata strings is modelled as non-emptiness. -/
def renderBlueprintEmail (blueprint : EmailBlueprint)
    (fallbackSubject fallbackPreview : String) : RenderedEmail :=
  let subject :=
    if blueprint.metadata.subject = "" then fallbackSubject
    else blueprint.metadata.subject
  let previewText :=
    if blueprint.metadata.previewText = "" then fallbackPreview
    else blueprint.metadata.previewText
  let intro :=
    if blueprint.metadata.intro ≠ "" then
      EmailSectionHtml none none (TextBlockHtml none blueprint.metadata.intro)
    else ""
  let personalization :=
    match blueprint.metadata.personalization with
    | some p =>
        if p ≠ "" then EmailSectionHtml none none (TextBlockHtml none p) else ""
    | none => ""
  let callToAction :=
    match blueprint.metadata.callToAction with
    | some cta => renderCallToActionBlock cta
    | none => ""
  renderEmail subject
    (wrapWithLayout previewText
      (concatS
        [intro,
         concatS (blueprint.sections.map renderSectionFromBlueprint),
         callToAction,
         personalization]))

/-- Subject of the daily digest (the local subject of the source). -/
def dailySubject (payload : DailyPriceUpdateEmail) : String :=
  "Daily update: " ++ formatDate payload.summaryDate ++ " alerts"

/-- Preview line of the daily digest (the local previewText of the
source; string truthiness of the alerts count is list
non-emptiness). -/
def dailyPreviewText (payload : DailyPriceUpdateEmail) : String :=
  if payload.alerts.length ≠ 0 then
    "Top matches for " ++ toString payload.alerts.length ++ " active alert" ++
      (if payload.alerts.length > 1 then "s" else "") ++ "."
  else "No new matches today."

/-- renderDailyPriceUpdateEmail of templates/daily-price-update: the
fallback template without a blueprint, the blueprint rendering with
one.  The embedding of the blueprint branch is total, so the source
try/catch fallback on a rendering exception is not reachable here. -/
def renderDailyPriceUpdateEmail (payload : DailyPriceUpdateEmail)
    (blueprint? : Option EmailBlueprint) : RenderedEmail :=
  match blueprint? with
  | none =>
      renderFallbackEmail payload (dailySubject payload)
        (dailyPreviewText payload)
  | some blueprint =>
      renderBlueprintEmail blueprint (dailySubject payload)
        (dailyPreviewText payload)

/-! AI generation pipeline (ai-email-agent generateBlueprint and
ai-email-service renderDailyDigestEmailWithAI). -/

/-- generateBlueprint of the AI email agent: none when the gateway is
not configured; otherwise the outcome of the external structured
generation call is validated against the blueprint schema, any
exception or schema mismatch yielding none. -/
def generateBlueprint (aiConfigured : Bool)
    (aiResult : Except Unit EmailBlueprint) : Option EmailBlueprint :=
  if !aiConfigured then none
  else
    match aiResult with
    | .error _ => none
    | .ok candidate =>
      match blueprintSafeParse candidate with
      | some validated => some validated
      | none => none

/-- renderDailyDigestEmailWithAI of the notifications service: render
with the generated blueprint when one is produced, with the fallback
otherwise. -/
def renderDailyDigestEmailWithAI (payload : DailyPriceUpdateEmail)
    (aiConfigured : Bool) (aiResult : Except Unit EmailBlueprint) :
    RenderedEmail :=
  match generateBlueprint aiConfigured aiResult with
  | none => renderDailyPriceUpdateEmail payload none
  | some blueprint => renderDailyPriceUpdateEmail payload (some blueprint)

/-! Markup-stripping lemmas for the fallback rendering path. -/

lemma Strips.congr_text {h t t2 : String} (a : Strips h t) (e : t = t2) :
    Strips h t2 := e ▸ a

lemma stripHtml_eq_of_strips {h t : String} (hs : Strips h t) :
    stripHtml h = t := by
  unfold stripHtml
  have := hs.1
  rw [this]

lemma strips_TextBlock (headline : Option String) (body : String) :
    Strips (TextBlockHtml headline body) (TextBlockText headline body) := by
  unfold TextBlockHtml TextBlockText
  apply Strips.el_tag _ _ (by decide)
  have h1 : Strips
      (match headline with
       | some h =>
           el "h3" " style=\"margin:0 0 6px;font-size:16px;font-weight:600;color:#0f172a\""
             (escapeHtml h)
       | none => "")
      (match headline with
       | some h => escapeHtml h
       | none => "") := by
    cases headline with
    | none => exact Strips.empty
    | some h => exact Strips.el_tag _ _ (by decide) (Strips.escape h)
  exact h1.append ((Strips.el_tag _ _ (by decide) (Strips.escape body)).append
    Strips.empty)

lemma strips_BadgeRow (items : List String) :
    Strips (BadgeRowHtml items) (BadgeRowText items) := by
  unfold BadgeRowHtml BadgeRowText
  apply Strips.el_tag _ _ (by decide)
  exact Strips.concat _ escapeHtml items
    (fun label _ => Strips.el_tag _ _ (by decide) (Strips.escape label))

lemma strips_FlightCard (card : FlightCardProps) (hact : card.action = none) :
    Strips (FlightCardHtml card) (FlightCardText card) := by
  unfold FlightCardHtml FlightCardText
  rw [hact]
  apply Strips.el_tag _ _ (by decide)
  have hHeader : Strips
      (el "div" " style=\"display:flex;justify-content:space-between;gap:12px\""
        (el "div" ""
          (concatS
            [el "h3" " style=\"margin:0 0 6px;font-size:16px;color:#0f172a\""
               (escapeHtml card.title),
             el "p" " style=\"margin:0;font-size:13px;color:#64748b\""
               (escapeHtml card.description)])))
      (concatS [escapeHtml card.title, escapeHtml card.description]) :=
    Strips.el_tag _ _ (by decide)
      (Strips.el_tag _ _ (by decide)
        ((Strips.el_tag _ _ (by decide) (Strips.escape card.title)).append
          ((Strips.el_tag _ _ (by decide) (Strips.escape card.description)).append
            Strips.empty)))
  have hUl :=
    Strips.el_tag
      "ul" " style=\"list-style:none;padding:0;margin:16px 0 0;display:grid;gap:8px\""
      (by decide)
      (Strips.concat _ _ card.highlights
        (fun hv _ =>
          Strips.el_tag "li" " style=\"font-size:13px;color:#475569\"" (by decide)
            ((Strips.el_tag "strong" " style=\"color:#0f172a\"" (by decide)
                (Strips.escape (hv.1 ++ ":"))).append
              ((Strips.escape (" " ++ hv.2)).append Strips.empty))))
  exact hHeader.append (hUl.append (Strips.empty.append Strips.empty))

lemma strips_FlightCardGrid (cards : List FlightCardProps)
    (h : ∀ c ∈ cards, c.action = none) :
    Strips (FlightCardGridHtml cards) (FlightCardGridText cards) := by
  unfold FlightCardGridHtml FlightCardGridText
  apply Strips.el_tag _ _ (by decide)
  exact Strips.concat _ _ cards fun c hc => strips_FlightCard c (h c hc)

lemma strips_EmailSection (title description : Option String)
    {children ct : String} (hc : Strips children ct) :
    Strips (EmailSectionHtml title description children)
      (EmailSectionText title description ct) := by
  unfold EmailSectionHtml EmailSectionText
  apply Strips.el_tag _ _ (by decide)
  have h1 : Strips
      (match title with
       | some t =>
           el "h2" " style=\"margin:0 0 8px;font-size:18px;font-weight:600;color:#0f172a\""
             (escapeHtml t)
       | none => "")
      (match title with
       | some t => escapeHtml t
       | none => "") := by
    cases title with
    | none => exact Strips.empty
    | some t => exact Strips.el_tag _ _ (by decide) (Strips.escape t)
  have h2 : Strips
      (match description with
       | some d =>
           el "p" " style=\"margin:0 0 16px;font-size:14px;color:#64748b\""
             (escapeHtml d)
       | none => "")
      (match description with
       | some d => escapeHtml d
       | none => "") := by
    cases description with
    | none => exact Strips.empty
    | some d => exact Strips.el_tag _ _ (by decide) (Strips.escape d)
  exact h1.append (h2.append ((Strips.el_tag _ _ (by decide) hc).append
    Strips.empty))

lemma strips_EmailLayout (previewText : String) {children ct : String}
    (hc : Strips children ct) :
    Strips (EmailLayoutHtml previewText children)
      (EmailLayoutText previewText ct) := by
  unfold EmailLayoutHtml EmailLayoutText
  apply Strips.el_tag _ _ (by decide)
  have hHead :=
    Strips.el_tag "head" "" (by decide)
      ((strips_voidEl "meta" " charSet=\x22UTF-8\x22" (by decide)).append
        ((strips_voidEl "meta"
            " name=\x22viewport\x22 content=\x22width=device-width, initial-scale=1\x22"
            (by decide)).append
          ((Strips.el_tag "title" "" (by decide)
              (Strips.escape "Flight Alerts")).append Strips.empty)))
  have hBody :=
    Strips.el_tag "body"
      " style=\"font-family:sans-serif;margin:0;padding:0;background-color:#f4f6fb;color:#0f172a\""
      (by decide)
      ((Strips.el_tag "div" " style=\"display:none;max-height:0;overflow:hidden\""
          (by decide) (Strips.escape previewText)).append
        ((Strips.el_tag "div" " style=\"width:100%;padding:24px 0\"" (by decide)
            (Strips.el_tag "div"
              " style=\"max-width:640px;margin:0 auto;background:#ffffff;border-radius:12px;overflow:hidden\""
              (by decide)
              (hc.append ((Strips.el_tag "div"
                  " style=\"padding:24px 28px;font-size:13px;color:#64748b;border-top:1px solid #e2e8f0\""
                  (by decide) (Strips.escape footerText)).append
                Strips.empty)))).append Strips.empty))
  exact hHead.append (hBody.append Strips.empty)

lemma strips_wrapWithLayout (previewText : String) {children ct : String}
    (hc : Strips children ct) :
    Strips (wrapWithLayout previewText children)
      (EmailLayoutText previewText ct) := by
  unfold wrapWithLayout
  have hd : Strips "<!DOCTYPE html>" "" := ⟨by decide, by decide⟩
  exact (hd.append (strips_EmailLayout previewText hc)).congr_text
    (string_empty_append _)

/-- Text content of one fallback alert section. -/
def fallbackAlertSectionText (summary : DailyAlertSummary) : String :=
  EmailSectionText (some summary.alert.label)
    (some (summary.alert.origin ++ " → " ++ summary.alert.destination ++
      " • Updated " ++ formatDateTime summary.generatedAt))
    (concatS
      [BadgeRowText (fallbackBadges summary.alert),
       FlightCardGridText (fallbackCards summary)])

/-- Text content of the fallback sections. -/
def fallbackSectionsText (payload : DailyPriceUpdateEmail) : String :=
  if payload.alerts.isEmpty then
    EmailSectionText none none (TextBlockText none noMatchesText)
  else
    concatS (payload.alerts.map fallbackAlertSectionText)

lemma strips_fallbackAlertSection (summary : DailyAlertSummary) :
    Strips (fallbackAlertSection summary) (fallbackAlertSectionText summary) := by
  unfold fallbackAlertSection fallbackAlertSectionText
  apply strips_EmailSection
  have hcards : ∀ c ∈ fallbackCards summary, c.action = none := by
    intro c hc
    obtain ⟨p, _, rfl⟩ := List.mem_map.mp hc
    rfl
  exact (strips_BadgeRow _).append
    ((strips_FlightCardGrid _ hcards).append Strips.empty)

lemma strips_renderFallbackSections (payload : DailyPriceUpdateEmail) :
    Strips (renderFallbackSections payload) (fallbackSectionsText payload) := by
  unfold renderFallbackSections fallbackSectionsText
  by_cases h : payload.alerts.isEmpty
  · rw [if_pos h, if_pos h]
    exact strips_EmailSection none none (strips_TextBlock none noMatchesText)
  · rw [if_neg h, if_neg h]
    exact Strips.concat _ _ payload.alerts
      fun summary _ => strips_fallbackAlertSection summary

/-- Text content of the whole fallback email body. -/
def fallbackChildrenText (payload : DailyPriceUpdateEmail) : String :=
  concatS
    [EmailSectionText (some "Daily flight price update") none
      (TextBlockText none
        ("Summary for " ++ escapeHtml (formatDate payload.summaryDate))),
     fallbackSectionsText payload]

lemma renderFallbackEmail_parts (payload : DailyPriceUpdateEmail)
    (subject previewText : String) :
    (renderFallbackEmail payload subject previewText).subject = subject
    ∧ (renderFallbackEmail payload subject previewText).text =
        EmailLayoutText previewText (fallbackChildrenText payload) := by
  constructor
  · rfl
  · show stripHtml _ = _
    apply stripHtml_eq_of_strips
    apply strips_wrapWithLayout
    exact (strips_EmailSection (some "Daily flight price update") none
        (strips_TextBlock none _)).append
      ((strips_renderFallbackSections payload).append Strips.empty)

lemma append_ne_empty_left {a : String} (b : String) (ha : a ≠ "") :
    a ++ b ≠ "" := by
  intro hc
  apply ha
  have hd := congrArg String.data hc
  rw [String.data_append] at hd
  exact String.ext (List.append_eq_nil.mp hd).1

lemma escapeHtml_noMatchesText : escapeHtml noMatchesText = noMatchesText := by
  decide

/-- C6: rendering the daily digest with no blueprint (its embedding is
a total function, so nothing can be thrown) always yields non-empty
subject, html and text; when the alerts list is empty the subject is
the fixed phrase around the formatted summary date and the text body
carries the no-matches sentence. -/
theorem fallback_render_claim (payload : DailyPriceUpdateEmail) :
    ((renderDailyPriceUpdateEmail payload none).subject ≠ ""
      ∧ (renderDailyPriceUpdateEmail payload none).html ≠ ""
      ∧ (renderDailyPriceUpdateEmail payload none).text ≠ "")
    ∧ (payload.alerts = [] →
        (renderDailyPriceUpdateEmail payload none).subject =
          "Daily update: " ++ formatDate payload.summaryDate ++ " alerts"
        ∧ ∃ a b, (renderDailyPriceUpdateEmail payload none).text =
            a ++ noMatchesText ++ b) := by
  have hsub : (renderDailyPriceUpdateEmail payload none).subject =
      dailySubject payload :=
    (renderFallbackEmail_parts payload (dailySubject payload)
      (dailyPreviewText payload)).1
  have htext : (renderDailyPriceUpdateEmail payload none).text =
      EmailLayoutText (dailyPreviewText payload) (fallbackChildrenText payload) :=
    (renderFallbackEmail_parts payload (dailySubject payload)
      (dailyPreviewText payload)).2
  constructor
  · refine ⟨?_, ?_, ?_⟩
    · rw [hsub]
      unfold dailySubject
      exact append_ne_empty_left _
        (append_ne_empty_left _ (by decide))
    · show wrapWithLayout _ _ ≠ ""
      unfold wrapWithLayout
      exact append_ne_empty_left _ (by decide)
    · rw [htext]
      unfold EmailLayoutText
      show concatS ["", "", escapeHtml "Flight Alerts"] ++ _ ≠ ""
      exact append_ne_empty_left _ (by decide)
  · intro halerts
    constructor
    · rw [hsub]; rfl
    · refine ⟨escapeHtml "Flight Alerts" ++ escapeHtml "No new matches today." ++
          escapeHtml "Daily flight price update" ++
          escapeHtml ("Summary for " ++ escapeHtml (formatDate payload.summaryDate)),
        escapeHtml footerText, ?_⟩
      rw [htext]
      apply String.ext
      simp [EmailLayoutText, fallbackChildrenText, fallbackSectionsText,
        EmailSectionText, TextBlockText, dailyPreviewText, concatS, halerts,
        escapeHtml_noMatchesText, String.data_append, List.append_assoc]

/-- C7: when the AI response parses but fails the blueprint schema, the
pipeline discards it and produces exactly the output of rendering the
same payload with no blueprint. -/
theorem invalid_blueprint_fallback_claim (payload : DailyPriceUpdateEmail)
    (aiConfigured : Bool) (candidate : EmailBlueprint)
    (h : blueprintSafeParse candidate = none) :
    renderDailyDigestEmailWithAI payload aiConfigured (.ok candidate) =
      renderDailyPriceUpdateEmail payload none := by
  unfold renderDailyDigestEmailWithAI generateBlueprint
  cases aiConfigured with
  | false => rfl
  | true => simp [h]

/-- Blueprint candidate whose subject exceeds the 120-character bound
of the schema. -/
def overlongSubjectBlueprint : EmailBlueprint :=
  { metadata :=
      { subject := String.mk (List.replicate 121 'a')
        previewText := "Latest updates based on your alert"
        intro := "Here is your latest flight update." }
    sections :=
      [{ id := "overview"
         title := some "Summary"
         components :=
           [.text "overview-text" (some "New flight insights")
              "No major updates were provided." "concise"] }] }

/-- Daily digest payload with an empty alerts list. -/
def emptyDailyPayload : DailyPriceUpdateEmail :=
  { summaryDate := "2025-01-01", alerts := [] }

set_option maxRecDepth 8192 in
/-- Witness for the C7 theorem at a concrete input. -/
theorem invalid_blueprint_fallback_claim_witness :
    renderDailyDigestEmailWithAI emptyDailyPayload true
        (.ok overlongSubjectBlueprint) =
      renderDailyPriceUpdateEmail emptyDailyPayload none :=
  invalid_blueprint_fallback_claim emptyDailyPayload true
    overlongSubjectBlueprint (by decide)

end FlightsTracker
